import Mathlib

/-!
Verification of `rpi-fan-control` (`src/fancontrol.py`).

The repository is a closed-loop fan controller: it periodically reads the
CPU temperature, maps it linearly to a PWM duty cycle clamped to
`[0, 100]`, and writes the duty cycle to the fan only when it differs from
the last committed value by more than `epsilon`.

Modelling choices for the shallow embedding:
* Python floats are modelled as rationals (`ℚ`); the arithmetic involved
  (one division, multiplications, additions, comparisons) is exact on the
  values the program handles.
* The infinite `while True` loop is modelled as a fold over a finite list
  of sensor readings: each list element is the raw content of one read of
  `/sys/class/thermal/thermal_zone0/temp` (`some raw`), or `none` when the
  read raises (`SensorUnavailable`).
* Python's `ZeroDivisionError` on `100.0 / (tmax - tmin)` when
  `tmax == tmin` is modelled by making the speed computation return
  `Option ℚ`.
* Observable hardware effects are recorded as an event trace: one
  `Event.read` per successful `get_temperature` call and one `Event.write`
  per `fan.set` call.
-/

/-- Errors that terminate a run of the control loop. -/
inductive RunError where
  /-- The sensor file could not be read (`SensorUnavailable`). -/
  | sensorUnavailable
  /-- `ZeroDivisionError` from `100.0 / (tmax - tmin)` when `tmax == tmin`. -/
  | zeroDivision
deriving DecidableEq, Repr

/-- Observable hardware events of one run. -/
inductive Event where
  /-- A successful sensor read returning temperature `t` (degrees C). -/
  | read (t : ℚ)
  /-- A call `fan.set(d)` committing duty cycle `d` to the PWM output. -/
  | write (d : ℚ)
deriving DecidableEq, Repr

/-- Embedding of `get_temperature` (fancontrol.py lines 39-51): the raw
file content, parsed as a number, is divided by 1000 to obtain degrees
Celsius. It is a pure function of the raw reading: it touches no
controller state. -/
def get_temperature (raw : ℚ) : ℚ :=
  raw / 1000

/-- Embedding of the speed computation in `control`
(fancontrol.py lines 131-133):
`m = 100.0 / (tmax - tmin)`, `c = -m * tmin`,
`speed = min(max(m * temperature + c, 0.0), 100.0)`.
Returns `none` when `tmax - tmin = 0`, where Python raises
`ZeroDivisionError`. -/
def computeSpeed (tmin tmax temperature : ℚ) : Option ℚ :=
  if tmax - tmin = 0 then
    none
  else
    let m := 100 / (tmax - tmin)
    let c := -m * tmin
    some (min (max (m * temperature + c) 0) 100)

/-- Embedding of the loop body of `control` (fancontrol.py lines 125-139),
run over a finite list of raw sensor readings. State threaded through the
loop is `previous_speed` (initialised to `0` at line 125 by the caller).
Returns the event trace and the error, if any, that ended the run. -/
def controlLoop (tmin tmax epsilon : ℚ) :
    ℚ → List (Option ℚ) → List Event × Option RunError
  | _, [] => ([], none)
  | _, none :: _ => ([], some RunError.sensorUnavailable)
  | previous_speed, some raw :: rest =>
    let temperature := get_temperature raw
    match computeSpeed tmin tmax temperature with
    | none => ([Event.read temperature], some RunError.zeroDivision)
    | some speed =>
      if epsilon < |speed - previous_speed| then
        let tail := controlLoop tmin tmax epsilon speed rest
        (Event.read temperature :: Event.write speed :: tail.1, tail.2)
      else
        let tail := controlLoop tmin tmax epsilon previous_speed rest
        (Event.read temperature :: tail.1, tail.2)

/-- The duty cycles committed to hardware, in order, of an event trace. -/
def writesOf : List Event → List ℚ
  | [] => []
  | Event.read _ :: rest => writesOf rest
  | Event.write d :: rest => d :: writesOf rest

/-- Embedding of the state of a `Fan` object (fancontrol.py lines 54-109):
`handle` is the lgpio handle `self.h` (`none` after closing), and
`releases` counts the `lgpio.gpiochip_close` calls issued, i.e. the
hardware releases. -/
structure Fan where
  handle : Option Nat
  releases : Nat
deriving DecidableEq, Repr

/-- Embedding of `Fan.close` (fancontrol.py lines 76-84): release the chip
only when the handle is still open, then record the handle as closed. The
Python method raises nothing on this path. -/
def Fan.close (s : Fan) : Fan :=
  match s.handle with
  | some _ => { handle := none, releases := s.releases + 1 }
  | none => s

/-- A freshly opened fan, as built by `Fan.__init__`: an open handle and
no releases yet. -/
def Fan.init : Fan :=
  { handle := some 0, releases := 0 }

/-- Embedding of `run` (fancontrol.py lines 142-162): open the fan, run
`control` with `previous_speed = 0`, and - via the `with` statement's
`__exit__` (lines 93-98) - call `Fan.close` on every exit path, normal or
error. Returns the control result together with the final fan state. -/
def run (tmin tmax epsilon : ℚ) (raws : List (Option ℚ)) :
    (List Event × Option RunError) × Fan :=
  (controlLoop tmin tmax epsilon 0 raws, Fan.close Fan.init)

/-- Reference definition, written from the spec's words (§8): target is
`0` for `t ≤ t_min`, `100` for `t ≥ t_max`, and
`100 * (t - t_min) / (t_max - t_min)` strictly in between. -/
def spec_target (tmin tmax t : ℚ) : ℚ :=
  if t ≤ tmin then 0
  else if tmax ≤ t then 100
  else 100 * (t - tmin) / (tmax - tmin)

/-- Decidable statement that one sensor reading keeps the computed target
within `epsilon` of `0` (vacuously true for failed reads and failed
computations). -/
def targetWithinEpsOfZero (tmin tmax epsilon : ℚ) (o : Option ℚ) : Bool :=
  match o with
  | none => true
  | some raw =>
    match computeSpeed tmin tmax (get_temperature raw) with
    | none => true
    | some speed => |speed| ≤ epsilon

/-! ### Helper lemmas -/

lemma computeSpeed_eq_some (tmin tmax t : ℚ) (h : tmax - tmin ≠ 0) :
    computeSpeed tmin tmax t
      = some (min (max (100 / (tmax - tmin) * t + -(100 / (tmax - tmin)) * tmin) 0) 100) := by
  simp [computeSpeed, h]

lemma linear_form (tmin tmax t : ℚ) (h : tmax - tmin ≠ 0) :
    100 / (tmax - tmin) * t + -(100 / (tmax - tmin)) * tmin
      = 100 * (t - tmin) / (tmax - tmin) := by
  field_simp
  ring

lemma computeSpeed_eq_spec (tmin tmax t : ℚ) (h : tmin < tmax) :
    computeSpeed tmin tmax t = some (spec_target tmin tmax t) := by
  have hd : 0 < tmax - tmin := sub_pos.mpr h
  have hne : tmax - tmin ≠ 0 := ne_of_gt hd
  rw [computeSpeed_eq_some tmin tmax t hne, linear_form tmin tmax t hne, spec_target]
  rcases le_or_lt t tmin with h1 | h1
  · have hx : 100 * (t - tmin) / (tmax - tmin) ≤ 0 := by
      rw [div_le_iff₀ hd]
      linarith
    rw [if_pos h1, max_eq_right hx, min_eq_left (by norm_num : (0:ℚ) ≤ 100)]
  · rw [if_neg (not_le.mpr h1)]
    rcases le_or_lt tmax t with h2 | h2
    · have hx : (100:ℚ) ≤ 100 * (t - tmin) / (tmax - tmin) := by
        rw [le_div_iff₀ hd]
        linarith
      rw [if_pos h2, max_eq_left (le_trans (by norm_num) hx), min_eq_right hx]
    · have hx0 : (0:ℚ) ≤ 100 * (t - tmin) / (tmax - tmin) :=
        div_nonneg (by linarith) hd.le
      have hx100 : 100 * (t - tmin) / (tmax - tmin) < 100 := by
        rw [div_lt_iff₀ hd]
        linarith
      rw [if_neg (not_le.mpr h2), max_eq_left hx0, min_eq_left hx100.le]

/-! ### Claims -/

/-- C1: for every temperature `t` and parameters with `t_min < t_max`, the
speed computed in `control` equals the spec's piecewise reference
definition: `0` for `t ≤ t_min`, `100` for `t ≥ t_max`, and
`100 * (t - t_min) / (t_max - t_min)` strictly in between. -/
theorem c1_target_piecewise (tmin tmax t : ℚ) (h : tmin < tmax) :
    computeSpeed tmin tmax t = some (spec_target tmin tmax t) :=
  computeSpeed_eq_spec tmin tmax t h

/-- Witness for C1 at `t_min = 50`, `t_max = 75`, `t = 60`. -/
theorem c1_target_piecewise_witness :
    (50:ℚ) < 75 ∧ computeSpeed 50 75 60 = some (spec_target 50 75 60) :=
  ⟨by norm_num, c1_target_piecewise 50 75 60 (by norm_num)⟩

/-- C5: the temperature-to-duty mapping is monotone: with `t_min < t_max`,
`t1 < t2` implies the computed speed at `t1` is at most the computed speed
at `t2`. -/
theorem c5_monotone (tmin tmax t1 t2 s1 s2 : ℚ) (hp : tmin < tmax) (ht : t1 < t2)
    (h1 : computeSpeed tmin tmax t1 = some s1)
    (h2 : computeSpeed tmin tmax t2 = some s2) :
    s1 ≤ s2 := by
  have hd : 0 < tmax - tmin := sub_pos.mpr hp
  have hne : tmax - tmin ≠ 0 := ne_of_gt hd
  rw [computeSpeed_eq_some tmin tmax t1 hne] at h1
  rw [computeSpeed_eq_some tmin tmax t2 hne] at h2
  have hs1 := Option.some.inj h1
  have hs2 := Option.some.inj h2
  subst hs1
  subst hs2
  have hm : (0:ℚ) ≤ 100 / (tmax - tmin) := by positivity
  have hlin : 100 / (tmax - tmin) * t1 + -(100 / (tmax - tmin)) * tmin
      ≤ 100 / (tmax - tmin) * t2 + -(100 / (tmax - tmin)) * tmin :=
    add_le_add_right (mul_le_mul_of_nonneg_left ht.le hm) _
  exact min_le_min (max_le_max hlin le_rfl) le_rfl

/-- Witness for C5 at `t_min = 50`, `t_max = 75`, `t1 = 60`, `t2 = 61`. -/
theorem c5_monotone_witness :
    ((50:ℚ) < 75 ∧ (60:ℚ) < 61
      ∧ computeSpeed 50 75 60 = some 40 ∧ computeSpeed 50 75 61 = some 44)
    ∧ (40:ℚ) ≤ 44 :=
  ⟨⟨by norm_num, by norm_num, by norm_num [computeSpeed], by norm_num [computeSpeed]⟩,
   c5_monotone 50 75 60 61 40 44 (by norm_num) (by norm_num)
     (by norm_num [computeSpeed]) (by norm_num [computeSpeed])⟩

/-- C2: on a loop iteration with computed speed `speed` and previous
committed speed `prev`: if `|speed - prev| ≤ epsilon` then no hardware
write occurs and the committed speed is unchanged for the rest of the run;
otherwise exactly one write of `speed` occurs and the committed speed
becomes `speed`. -/
theorem c2_damping (tmin tmax epsilon prev raw : ℚ) (rest : List (Option ℚ)) (speed : ℚ)
    (hs : computeSpeed tmin tmax (get_temperature raw) = some speed) :
    (|speed - prev| ≤ epsilon →
      controlLoop tmin tmax epsilon prev (some raw :: rest)
        = (Event.read (get_temperature raw) :: (controlLoop tmin tmax epsilon prev rest).1,
           (controlLoop tmin tmax epsilon prev rest).2)) ∧
    (epsilon < |speed - prev| →
      controlLoop tmin tmax epsilon prev (some raw :: rest)
        = (Event.read (get_temperature raw) :: Event.write speed
             :: (controlLoop tmin tmax epsilon speed rest).1,
           (controlLoop tmin tmax epsilon speed rest).2)) := by
  constructor
  · intro hle
    simp [controlLoop, hs, not_lt.mpr hle]
  · intro hlt
    simp [controlLoop, hs, hlt]

/-- Witness for C2 at `t_min = 50`, `t_max = 75`, `epsilon = 1`,
`prev = 0`, raw reading `40000` (40 degrees C, computed speed `0`). -/
theorem c2_damping_witness :
    ((|0 - 0| : ℚ) ≤ 1 →
      controlLoop 50 75 1 0 [some 40000]
        = (Event.read (get_temperature 40000) :: (controlLoop 50 75 1 0 ([] : List (Option ℚ))).1,
           (controlLoop 50 75 1 0 ([] : List (Option ℚ))).2)) ∧
    ((1:ℚ) < |0 - 0| →
      controlLoop 50 75 1 0 [some 40000]
        = (Event.read (get_temperature 40000) :: Event.write 0
             :: (controlLoop 50 75 1 0 ([] : List (Option ℚ))).1,
           (controlLoop 50 75 1 0 ([] : List (Option ℚ))).2)) :=
  c2_damping 50 75 1 0 40000 [] 0 (by norm_num [computeSpeed, get_temperature])

/-- C3 counterexample: with `t_min = 50`, `t_max = 75`, `epsilon = 1` and
temperatures `[40, 60, 61, 90]` (raw readings in millidegrees), the writes
are not `[0, 40, 44, 100]`: the first iteration computes `0`, which is
within `epsilon` of the initial committed speed `0`, so no write of `0`
occurs. -/
theorem c3_counterexample :
    writesOf (controlLoop 50 75 1 0 [some 40000, some 60000, some 61000, some 90000]).1
      ≠ [0, 40, 44, 100] := by
  norm_num [controlLoop, computeSpeed, get_temperature, writesOf]

/-- C3 amended: with `t_min = 50`, `t_max = 75`, `epsilon = 1` and
temperature sequence `[40, 60, 61, 90]`, the loop issues exactly the
hardware writes `40.0`, `44.0`, `100.0` in that order, and terminates the
trace without error. -/
theorem c3_scenario_writes :
    writesOf (controlLoop 50 75 1 0 [some 40000, some 60000, some 61000, some 90000]).1
        = [40, 44, 100]
      ∧ (controlLoop 50 75 1 0 [some 40000, some 60000, some 61000, some 90000]).2 = none := by
  norm_num [controlLoop, computeSpeed, get_temperature, writesOf]

/-- C4 counterexample: with `t_max = t_min = 50` the loop body IS entered:
a sensor read happens (the event trace is nonempty), and the run fails
with a division-by-zero error inside the loop, not with a configuration
validation error before it. No `ControlParameters` construction or
validation exists in the code. -/
theorem c4_counterexample :
    controlLoop 50 50 1 0 [some 60000] = ([Event.read 60], some RunError.zeroDivision)
      ∧ (controlLoop 50 50 1 0 [some 60000]).1 ≠ [] := by
  norm_num [controlLoop, computeSpeed, get_temperature]

/-- C4 amended: the code performs no validation of `t_max = t_min`; the
loop is entered, the first sensor read succeeds, and the slope computation
`100.0 / (tmax - tmin)` then fails with `ZeroDivisionError` on the first
iteration. -/
theorem c4_no_validation (tmin epsilon raw : ℚ) (rest : List (Option ℚ)) :
    controlLoop tmin tmin epsilon 0 (some raw :: rest)
      = ([Event.read (get_temperature raw)], some RunError.zeroDivision) := by
  simp [controlLoop, computeSpeed]

lemma computeSpeed_range (tmin tmax t s : ℚ)
    (h : computeSpeed tmin tmax t = some s) : 0 ≤ s ∧ s ≤ 100 := by
  by_cases hne : tmax - tmin = 0
  · simp [computeSpeed, hne] at h
  · rw [computeSpeed_eq_some tmin tmax t hne] at h
    have hs := Option.some.inj h
    subst hs
    exact ⟨le_min (le_max_right _ 0) (by norm_num), min_le_right _ 100⟩

/-- C6: every duty cycle passed to `fan.set` during a run of the control
loop lies in the closed interval `[0, 100]`, for every starting committed
speed and every sequence of sensor readings. -/
theorem c6_writes_in_range (tmin tmax epsilon prev : ℚ) (raws : List (Option ℚ)) (d : ℚ)
    (hd : Event.write d ∈ (controlLoop tmin tmax epsilon prev raws).1) :
    0 ≤ d ∧ d ≤ 100 := by
  induction raws generalizing prev with
  | nil => simp [controlLoop] at hd
  | cons o rest ih =>
    cases o with
    | none => simp [controlLoop] at hd
    | some raw =>
      cases hcs : computeSpeed tmin tmax (get_temperature raw) with
      | none => simp [controlLoop, hcs] at hd
      | some speed =>
        by_cases hb : epsilon < |speed - prev|
        · simp [controlLoop, hcs, hb] at hd
          rcases hd with rfl | hd
          · exact computeSpeed_range tmin tmax (get_temperature raw) d hcs
          · exact ih speed hd
        · simp [controlLoop, hcs, hb] at hd
          exact ih prev hd

/-- Witness for C6: the write of `40` issued at 60 degrees C with
`t_min = 50`, `t_max = 75`, `epsilon = 1` is in `[0, 100]`. -/
theorem c6_writes_in_range_witness :
    (Event.write 40 ∈ (controlLoop 50 75 1 0 [some 60000]).1)
      ∧ ((0:ℚ) ≤ 40 ∧ (40:ℚ) ≤ 100) :=
  ⟨by norm_num [controlLoop, computeSpeed, get_temperature],
   c6_writes_in_range 50 75 1 0 [some 60000] 40
     (by norm_num [controlLoop, computeSpeed, get_temperature])⟩

/-- C7: `Fan.close` is idempotent: a second close on the same handle is a
no-op (the model is a total function, so no exception is raised) and, in
particular, issues no second hardware release. -/
theorem c7_close_idempotent (s : Fan) :
    Fan.close (Fan.close s) = Fan.close s
      ∧ (Fan.close (Fan.close s)).releases = (Fan.close s).releases := by
  cases hs : s.handle <;> simp [Fan.close, hs]

lemma controlLoop_sensor_fail (tmin tmax epsilon : ℚ) (raws : List (Option ℚ))
    (hne : tmax - tmin ≠ 0) :
    none ∈ raws →
      ∀ prev, (controlLoop tmin tmax epsilon prev raws).2 = some RunError.sensorUnavailable := by
  induction raws with
  | nil => intro hmem; simp at hmem
  | cons o rest ih =>
    intro hmem prev
    cases o with
    | none => simp [controlLoop]
    | some raw =>
      have hrest : none ∈ rest := by simpa using hmem
      cases hcs : computeSpeed tmin tmax (get_temperature raw) with
      | none =>
        rw [computeSpeed_eq_some _ _ _ hne] at hcs
        exact absurd hcs (by simp)
      | some speed =>
        by_cases hb : epsilon < |speed - prev|
        · simpa [controlLoop, hcs, hb] using ih hrest speed
        · simpa [controlLoop, hcs, hb] using ih hrest prev

/-- C8: if a sensor read fails anywhere in the reading sequence (and the
configuration does not divide by zero first), the run ends with the
`SensorUnavailable` error surfaced as its result, and the fan is closed
exactly once (one hardware release) on the way out. -/
theorem c8_sensor_failure (tmin tmax epsilon : ℚ) (raws : List (Option ℚ))
    (hne : tmax - tmin ≠ 0) (hmem : none ∈ raws) :
    (run tmin tmax epsilon raws).1.2 = some RunError.sensorUnavailable
      ∧ (run tmin tmax epsilon raws).2.releases = 1 :=
  ⟨controlLoop_sensor_fail tmin tmax epsilon raws hne hmem 0,
   by simp [run, Fan.close, Fan.init]⟩

/-- Witness for C8: reading sequence `[60 degrees, failure]` with the
default parameters. -/
theorem c8_sensor_failure_witness :
    ((75:ℚ) - 50 ≠ 0 ∧ none ∈ [some (60000:ℚ), none])
    ∧ ((run 50 75 1 [some 60000, none]).1.2 = some RunError.sensorUnavailable
       ∧ (run 50 75 1 [some 60000, none]).2.releases = 1) :=
  ⟨⟨by norm_num, by simp⟩,
   c8_sensor_failure 50 75 1 [some 60000, none] (by norm_num) (by simp)⟩

/-- C9: `get_temperature` returns the raw sensor value divided by 1000
(equivalently, multiplying the result back by 1000 recovers the raw
value); in the embedding it is a pure function of the raw reading, with no
effect on controller state. -/
theorem c9_millidegrees (raw : ℚ) :
    get_temperature raw = raw / 1000 ∧ get_temperature raw * 1000 = raw := by
  constructor
  · rfl
  · show raw / 1000 * 1000 = raw
    field_simp

/-- C10: the loop starts with committed speed `0` and issues no initial
hardware write; in any run in which every computed target stays within
`epsilon` of `0`, `fan.set` is never called at all. -/
theorem c10_quiet_start (tmin tmax epsilon : ℚ) (raws : List (Option ℚ))
    (h : ∀ o ∈ raws, targetWithinEpsOfZero tmin tmax epsilon o = true) :
    writesOf (controlLoop tmin tmax epsilon 0 raws).1 = [] := by
  induction raws with
  | nil => simp [controlLoop, writesOf]
  | cons o rest ih =>
    have hrest : ∀ o ∈ rest, targetWithinEpsOfZero tmin tmax epsilon o = true :=
      fun x hx => h x (List.mem_cons_of_mem _ hx)
    cases o with
    | none => simp [controlLoop, writesOf]
    | some raw =>
      cases hcs : computeSpeed tmin tmax (get_temperature raw) with
      | none => simp [controlLoop, hcs, writesOf]
      | some speed =>
        have hhead := h (some raw) (List.mem_cons_self _ _)
        simp [targetWithinEpsOfZero, hcs] at hhead
        have hnb : ¬ epsilon < |speed| := not_lt.mpr hhead
        simp [controlLoop, hcs, hnb, writesOf]
        exact ih hrest

/-- Witness for C10: one reading of exactly `t_min` degrees (target `0`,
within `epsilon = 1` of `0`) produces no write. -/
theorem c10_quiet_start_witness :
    (∀ o ∈ [some (50000:ℚ)], targetWithinEpsOfZero 50 75 1 o = true)
    ∧ writesOf (controlLoop 50 75 1 0 [some 50000]).1 = [] :=
  ⟨by norm_num [targetWithinEpsOfZero, computeSpeed, get_temperature],
   c10_quiet_start 50 75 1 [some 50000]
     (by norm_num [targetWithinEpsOfZero, computeSpeed, get_temperature])⟩
